import Mathlib

/-!
Shallow embedding of the rumq MQTT broker and its mqtt5bytes wire codec.

Byte streams are modelled as `List Nat` (each entry a byte value < 256); the
cursored `Bytes`/`BytesMut` buffers of the `bytes` 0.5 crate are modelled by
returning the un-consumed suffix of the list.  Rust functions that can panic
(`get_u8` on an empty buffer, `advance`/`split_to` past the end, checked
integer underflow) return in the `Pan` wrapper, whose `panic` constructor
records that the Rust code aborts.  Machine integers are modelled as `Nat`
with explicit `% 2^32` reductions at the points where `u32` arithmetic can
wrap.
-/

/-- Outcome of a Rust computation that may panic. -/
inductive Pan (α : Type) where
  | ok : α → Pan α
  | panic : Pan α
deriving DecidableEq, Repr

/-- The error enum of mqtt5bytes (`src/mqtt5bytes/src/err.rs`), restricted to
the variants reachable from the functions embedded here. -/
inductive Err where
  | UnexpectedEof
  | BoundaryCrossed
  | TopicNotUtf8
  | MalformedVariableByteInteger
  | InvalidProperty
  | PacketIdZero
  | InvalidQoS (q : Nat)
  | PayloadSizeLimitExceeded
  | PayloadRequired
  | InvalidPacketType (t : Nat)
deriving DecidableEq, Repr

/-- `Buf::get_u8` of bytes 0.5: pop one byte, panicking on an empty buffer. -/
def getU8 : List Nat → Pan (Nat × List Nat)
  | [] => .panic
  | b :: rest => .ok (b, rest)

/-- `Buf::get_u16` (big endian), panicking when fewer than two bytes remain. -/
def getU16 : List Nat → Pan (Nat × List Nat)
  | b0 :: b1 :: rest => .ok (b0 * 256 + b1, rest)
  | _ => .panic

/-- `Buf::get_u32` (big endian), panicking when fewer than four bytes remain. -/
def getU32 : List Nat → Pan (Nat × List Nat)
  | b0 :: b1 :: b2 :: b3 :: rest =>
      .ok (((b0 * 256 + b1) * 256 + b2) * 256 + b3, rest)
  | _ => .panic

/-- `Buf::advance n`, panicking when the buffer holds fewer than `n` bytes. -/
def bufAdvance (n : Nat) (s : List Nat) : Pan (List Nat) :=
  if n ≤ s.length then .ok (s.drop n) else .panic

/-- `Bytes::split_to n`: the split-off head and the remainder; panics when the
buffer holds fewer than `n` bytes. -/
def splitTo (n : Nat) (s : List Nat) : Pan (List Nat × List Nat) :=
  if n ≤ s.length then .ok (s.take n, s.drop n) else .panic

/-- Checked `usize`/`u32` subtraction: Rust debug builds panic on underflow. -/
def subChk (a b : Nat) : Pan Nat :=
  if b ≤ a then .ok (a - b) else .panic

/-- The loop of `decode_variable_byte` (src/mqtt5bytes/src/control/mod.rs
lines 75-90).  One iteration reads a byte, adds `(byte & 127) * multiplier`
into the accumulated value (u32 arithmetic, hence the `% 2^32`), errors out
when the multiplier has already passed `128*128*128`, and continues while the
continuation bit (0x80) of the byte just read is set. -/
def decodeVarByteGo (s : List Nat) (multiplier value byteLen : Nat) :
    Pan (Except Err Nat × Nat × List Nat) :=
  match s with
  | [] => .panic
  | b :: rest =>
    let byteLen := byteLen + 1
    let value := (value + (b &&& 127) * multiplier) % 2 ^ 32
    if multiplier > 128 * 128 * 128 then
      .ok (.error .MalformedVariableByteInteger, byteLen, rest)
    else
      let multiplier := multiplier * 128
      if b &&& 128 ≠ 0 then
        decodeVarByteGo rest multiplier value byteLen
      else
        .ok (.ok value, byteLen, rest)

/-- `decode_variable_byte` (src/mqtt5bytes/src/control/mod.rs lines 75-90):
returns the decoded result together with the number of bytes consumed and the
remaining stream.  `get_u8` on an exhausted stream panics. -/
def decode_variable_byte (s : List Nat) : Pan (Except Err Nat × Nat × List Nat) :=
  decodeVarByteGo s 1 0 0

/-- `i32::to_ne_bytes`, modelled in little-endian byte order (the order is
native to the build machine; the length, four bytes, is what the claims below
depend on and is endianness-independent). -/
def i32NeBytes (v : Nat) : List Nat :=
  [v % 256, v / 256 % 256, v / 2 ^ 16 % 256, v / 2 ^ 24 % 256]

/-- The loop of `encode_variable_byte` (src/mqtt5bytes/src/control/mod.rs
lines 96-110): while `value > 0`, take the next base-128 digit, set the
continuation bit when more digits follow, and append the digit's
`i32::to_ne_bytes` (four bytes) to the buffer.  The loop halves-or-better the
value each iteration, so `value` itself bounds the iteration count; `fuel` is
that bound, making the recursion structural. -/
def encodeVarByteGo (fuel value : Nat) : List Nat :=
  match fuel with
  | 0 => []
  | fuel + 1 =>
    if value = 0 then []
    else
      let encodedByte := value % 128
      let value' := value / 128
      let encodedByte := if value' > 0 then encodedByte ||| 128 else encodedByte
      i32NeBytes encodedByte ++ encodeVarByteGo fuel value'

/-- `encode_variable_byte` (src/mqtt5bytes/src/control/mod.rs lines 96-110).
The source signature is `fn(i32) -> Result<Bytes, Error>`; it never returns an
error.  Nonnegative `i32` values are modelled as `Nat`. -/
def encode_variable_byte (value : Nat) : Except Err (List Nat) :=
  .ok (encodeVarByteGo value value)

/-- The MQTT §1.5.5 minimum-length variable-byte encoding, written from the
spec's words (spec.md §4.1) for comparison with the source encoder: base-128
little-endian digits with continuation bit 0x80, one byte per digit,
minimum number of digits.  `fuel` bounds the digit count as above. -/
def specVarByteEncodeGo (fuel v : Nat) : List Nat :=
  match fuel with
  | 0 => [v]
  | fuel + 1 =>
    if v < 128 then [v]
    else (v % 128 ||| 128) :: specVarByteEncodeGo fuel (v / 128)

/-- Minimum-length MQTT variable-byte encoding of `v` (from the spec). -/
def specVarByteEncode (v : Nat) : List Nat :=
  specVarByteEncodeGo v v

/-- C1: For every integer v in [0, 268_435_455], encode_variable_byte(v)
produces the minimum-length MQTT base-128 continuation-bit encoding of v
(1 to 4 bytes), and decode_variable_byte applied to that encoding returns v
together with the number of bytes consumed.

The claim is false of the code: the encoder emits the four bytes of
`i32::to_ne_bytes` for every base-128 digit and emits nothing at all for
v = 0.  At v = 0 the encoding is empty (the minimum-length encoding is the
single byte 0x00) and decoding the empty encoding panics; at v = 912 (the
input of the source's own `encode_variable_byte_int` test) the encoder emits
eight bytes and decoding them yields 16 ≠ 912 after consuming two bytes. -/
theorem c1_varbyte_roundtrip_fails :
    encode_variable_byte 0 = .ok [] ∧
    specVarByteEncode 0 = [0] ∧
    decode_variable_byte [] = .panic ∧
    encode_variable_byte 912 = .ok [144, 0, 0, 0, 7, 0, 0, 0] ∧
    specVarByteEncode 912 = [144, 7] ∧
    decode_variable_byte [144, 0, 0, 0, 7, 0, 0, 0] =
      .ok (.ok 16, 2, [0, 0, 7, 0, 0, 0]) :=
  ⟨rfl, rfl, rfl, rfl, rfl, rfl⟩

/-- Continuation byte test for UTF-8 validation (0x80..0xBF). -/
def isUtf8Cont (c : Nat) : Bool := 0x80 ≤ c && c ≤ 0xBF

/-- Validity of a byte list as UTF-8, modelling Rust's
`String::from_utf8` success condition (standard UTF-8 with overlong,
surrogate and out-of-range sequences rejected). -/
def isValidUtf8 : List Nat → Bool
  | [] => true
  | b :: rest =>
    if b < 0x80 then isValidUtf8 rest
    else if b < 0xC2 then false
    else if b < 0xE0 then
      match rest with
      | c1 :: rest2 => isUtf8Cont c1 && isValidUtf8 rest2
      | _ => false
    else if b < 0xF0 then
      match rest with
      | c1 :: c2 :: rest2 =>
        (if b = 0xE0 then decide (0xA0 ≤ c1 && c1 ≤ 0xBF)
         else if b = 0xED then decide (0x80 ≤ c1 && c1 ≤ 0x9F)
         else isUtf8Cont c1) && isUtf8Cont c2 && isValidUtf8 rest2
      | _ => false
    else if b < 0xF5 then
      match rest with
      | c1 :: c2 :: c3 :: rest2 =>
        (if b = 0xF0 then decide (0x90 ≤ c1 && c1 ≤ 0xBF)
         else if b = 0xF4 then decide (0x80 ≤ c1 && c1 ≤ 0x8F)
         else isUtf8Cont c1) && isUtf8Cont c2 && isUtf8Cont c3 && isValidUtf8 rest2
      | _ => false
    else false

/-- `extract_mqtt_string` (src/mqtt5bytes/src/control/mod.rs lines 46-59):
read a two-byte big-endian length, fail with `BoundaryCrossed` when it
exceeds the remainder, split that many bytes off and validate them as UTF-8.
The decoded Rust `String` is modelled by its UTF-8 byte list. -/
def extract_mqtt_string (stream : List Nat) : Pan (Except Err (List Nat) × List Nat) :=
  match getU16 stream with
  | .panic => .panic
  | .ok (len, rest) =>
    if len > rest.length then .ok (.error .BoundaryCrossed, rest)
    else
      let s := rest.take len
      let rest := rest.drop len
      if isValidUtf8 s then .ok (.ok s, rest) else .ok (.error .TopicNotUtf8, rest)

/-- The `while strlen != 0` loop of `decode_utf_string`
(src/mqtt5bytes/src/control/mod.rs lines 114-130).  The source never
decrements `strlen`, so for `strlen ≠ 0` the loop keeps reading until the
buffer is exhausted and then panics in `get_u8`; the recursion is on the
shrinking stream. -/
def decodeUtfDrain (strlen : Nat) : (data s : List Nat) → Pan (List Nat × List Nat)
  | data, [] => if strlen = 0 then .ok (data, []) else .panic
  | data, b :: rest =>
    if strlen = 0 then .ok (data, b :: rest)
    else decodeUtfDrain strlen (data ++ [b]) rest

/-- `decode_utf_string` (src/mqtt5bytes/src/control/mod.rs lines 114-130):
returns the decoded string (as its byte list) and `2 + strlen`, the declared
byte length.  A UTF-8 failure is reported as `UnexpectedEof` (source line
127). -/
def decode_utf_string (stream : List Nat) :
    Pan (Except Err (List Nat) × Nat × List Nat) :=
  match getU16 stream with
  | .panic => .panic
  | .ok (strlen, rest) =>
    let bytelen := 2 + strlen
    match decodeUtfDrain strlen [] rest with
    | .panic => .panic
    | .ok (data, rest) =>
      if isValidUtf8 data then .ok (.ok data, bytelen, rest)
      else .ok (.error .UnexpectedEof, bytelen, rest)

/-- `decode_utf_string_pair` (src/mqtt5bytes/src/control/mod.rs lines
145-150): decodes two strings back to back and `unwrap`s both results, so a
decode error panics. -/
def decode_utf_string_pair (stream : List Nat) :
    Pan ((List Nat × List Nat) × Nat × List Nat) :=
  match decode_utf_string stream with
  | .panic => .panic
  | .ok (k, l1, rest) =>
    match decode_utf_string rest with
    | .panic => .panic
    | .ok (v, l2, rest) =>
      match k, v with
      | .ok k, .ok v => .ok ((k, v), l1 + l2, rest)
      | _, _ => .panic

/-- The `while blen != 0` loop of `decode_binary_data`
(src/mqtt5bytes/src/control/mod.rs lines 167-177): reads `blen` bytes,
decrementing the count (this loop, unlike `decode_utf_string`, terminates). -/
def binDrain (data : List Nat) : Nat → List Nat → Pan (List Nat × List Nat)
  | 0, s => .ok (data, s)
  | blen + 1, s =>
    match s with
    | [] => .panic
    | b :: rest => binDrain (data ++ [b]) blen rest

/-- `decode_binary_data` (src/mqtt5bytes/src/control/mod.rs lines 167-177):
returns the bytes and `2 + data.len()`. -/
def decode_binary_data (stream : List Nat) :
    Pan (Except Err (List Nat) × Nat × List Nat) :=
  match getU16 stream with
  | .panic => .panic
  | .ok (blen, rest) =>
    match binDrain [] blen rest with
    | .panic => .panic
    | .ok (data, rest) => .ok (.ok data, 2 + data.length, rest)

/-- The flat property record of mqtt5bytes
(src/mqtt5bytes/src/control/properties.rs lines 40-68).  Rust `String`
values are modelled by their UTF-8 byte lists; note the source decodes
`correlation_data` and `authentication_data` with the UTF-8 string decoder
and `subscription_identifier` with `get_u32`. -/
structure Properties where
  payload_format_indicator : Option Nat := none
  message_expiry_interval : Option Nat := none
  content_type : Option (List Nat) := none
  response_topic : Option (List Nat) := none
  correlation_data : Option (List Nat) := none
  subscription_identifier : Option Nat := none
  session_expiry_interval : Option Nat := none
  assigned_client_identifier : Option (List Nat) := none
  server_keep_alive : Option Nat := none
  authentication_method : Option (List Nat) := none
  authentication_data : Option (List Nat) := none
  request_problem_info : Option Nat := none
  will_delay_interval : Option Nat := none
  request_response_info : Option Nat := none
  response_info : Option (List Nat) := none
  server_info : Option (List Nat) := none
  reason_string : Option (List Nat) := none
  receive_maximum : Option Nat := none
  topic_alias_maximum : Option Nat := none
  topic_alias : Option Nat := none
  maximum_qos : Option Nat := none
  retain_available : Option Nat := none
  user_property : Option (List Nat × List Nat) := none
  maximum_packet_size : Option Nat := none
  wildcard_subscription_available : Option Nat := none
  subscription_identifier_available : Option Nat := none
  shared_subscription_available : Option Nat := none
deriving DecidableEq, Repr

/-- The `while prop_length > 0` loop of `extract_properties`
(src/mqtt5bytes/src/control/properties.rs lines 103-232).  Each iteration
reads a one-byte identifier and decrements the remaining length by one plus
the value's accounted size; decrements use checked subtraction (`subChk`),
matching the panic of debug-build `u32` underflow.  Every iteration consumes
at least the identifier byte, so the stream length bounds the iteration
count; `fuel` is initialised to more than that bound and the `fuel = 0`
branch is unreachable. -/
def extractPropsGo : (fuel : Nat) → (propLength : Nat) → Properties →
    List Nat → Pan (Except Err Properties × List Nat)
  | 0, _, _, _ => .panic
  | _ + 1, 0, acc, s => .ok (.ok acc, s)
  | fuel + 1, n + 1, acc, s =>
    match getU8 s with
    | .panic => .panic
    | .ok (ident, s) =>
      -- `prop_length -= ByteLengths::BYTE_INT` for the identifier byte
      let L := n
      match ident with
      | 0 => -- PAYLOAD_FORMAT_INDICATOR (source constant is 0)
        match getU8 s with
        | .panic => .panic
        | .ok (v, s) =>
          match subChk L 1 with
          | .panic => .panic
          | .ok L => extractPropsGo fuel L { acc with payload_format_indicator := some v } s
      | 2 => -- MESSAGE_EXPIRY_INTERVAL
        match getU32 s with
        | .panic => .panic
        | .ok (v, s) =>
          match subChk L 4 with
          | .panic => .panic
          | .ok L => extractPropsGo fuel L { acc with message_expiry_interval := some v } s
      | 3 => -- CONTENT_TYPE
        match decode_utf_string s with
        | .panic => .panic
        | .ok (.error e, _, s) => .ok (.error e, s)
        | .ok (.ok v, len, s) =>
          match subChk L len with
          | .panic => .panic
          | .ok L => extractPropsGo fuel L { acc with content_type := some v } s
      | 8 => -- RESPONSE_TOPIC
        match decode_utf_string s with
        | .panic => .panic
        | .ok (.error e, _, s) => .ok (.error e, s)
        | .ok (.ok v, len, s) =>
          match subChk L len with
          | .panic => .panic
          | .ok L => extractPropsGo fuel L { acc with response_topic := some v } s
      | 9 => -- CORRELATION_DATA (decoded as a UTF-8 string in the source)
        match decode_utf_string s with
        | .panic => .panic
        | .ok (.error e, _, s) => .ok (.error e, s)
        | .ok (.ok v, len, s) =>
          match subChk L len with
          | .panic => .panic
          | .ok L => extractPropsGo fuel L { acc with correlation_data := some v } s
      | 11 => -- SUBSCRIPTION_IDENTIFIER (read with `get_u32` in the source)
        match getU32 s with
        | .panic => .panic
        | .ok (v, s) =>
          match subChk L 4 with
          | .panic => .panic
          | .ok L => extractPropsGo fuel L { acc with subscription_identifier := some v } s
      | 17 => -- SESSION_EXPIRY_INTERVAL
        match getU32 s with
        | .panic => .panic
        | .ok (v, s) =>
          match subChk L 4 with
          | .panic => .panic
          | .ok L => extractPropsGo fuel L { acc with session_expiry_interval := some v } s
      | 18 => -- ASSIGNED_CLIENT_IDENTIFIER
        match decode_utf_string s with
        | .panic => .panic
        | .ok (.error e, _, s) => .ok (.error e, s)
        | .ok (.ok v, len, s) =>
          match subChk L len with
          | .panic => .panic
          | .ok L => extractPropsGo fuel L { acc with assigned_client_identifier := some v } s
      | 19 => -- SERVER_KEEP_ALIVE: reads a u16 but decrements FOUR_BYTE_INT
        match getU16 s with
        | .panic => .panic
        | .ok (v, s) =>
          match subChk L 4 with
          | .panic => .panic
          | .ok L => extractPropsGo fuel L { acc with server_keep_alive := some v } s
      | 21 => -- AUTHENTICATION_METHOD
        match decode_utf_string s with
        | .panic => .panic
        | .ok (.error e, _, s) => .ok (.error e, s)
        | .ok (.ok v, len, s) =>
          match subChk L len with
          | .panic => .panic
          | .ok L => extractPropsGo fuel L { acc with authentication_method := some v } s
      | 22 => -- AUTHENTICATION_DATA (decoded as a UTF-8 string in the source)
        match decode_utf_string s with
        | .panic => .panic
        | .ok (.error e, _, s) => .ok (.error e, s)
        | .ok (.ok v, len, s) =>
          match subChk L len with
          | .panic => .panic
          | .ok L => extractPropsGo fuel L { acc with authentication_data := some v } s
      | 23 => -- REQUEST_PROBLEM_INFORMATION
        match getU8 s with
        | .panic => .panic
        | .ok (v, s) =>
          match subChk L 1 with
          | .panic => .panic
          | .ok L => extractPropsGo fuel L { acc with request_problem_info := some v } s
      | 24 => -- WILL_DELAY_INTERVAL
        match getU32 s with
        | .panic => .panic
        | .ok (v, s) =>
          match subChk L 4 with
          | .panic => .panic
          | .ok L => extractPropsGo fuel L { acc with will_delay_interval := some v } s
      | 25 => -- REQUEST_RESPONSE_INFORMATION
        match getU8 s with
        | .panic => .panic
        | .ok (v, s) =>
          match subChk L 1 with
          | .panic => .panic
          | .ok L => extractPropsGo fuel L { acc with request_response_info := some v } s
      | 26 => -- RESPONSE_INFO
        match decode_utf_string s with
        | .panic => .panic
        | .ok (.error e, _, s) => .ok (.error e, s)
        | .ok (.ok v, len, s) =>
          match subChk L len with
          | .panic => .panic
          | .ok L => extractPropsGo fuel L { acc with response_info := some v } s
      | 28 => -- SERVER_INFO
        match decode_utf_string s with
        | .panic => .panic
        | .ok (.error e, _, s) => .ok (.error e, s)
        | .ok (.ok v, len, s) =>
          match subChk L len with
          | .panic => .panic
          | .ok L => extractPropsGo fuel L { acc with server_info := some v } s
      | 31 => -- REASON_STRING
        match decode_utf_string s with
        | .panic => .panic
        | .ok (.error e, _, s) => .ok (.error e, s)
        | .ok (.ok v, len, s) =>
          match subChk L len with
          | .panic => .panic
          | .ok L => extractPropsGo fuel L { acc with reason_string := some v } s
      | 33 => -- RECEIVE_MAXIMUM
        match getU16 s with
        | .panic => .panic
        | .ok (v, s) =>
          match subChk L 2 with
          | .panic => .panic
          | .ok L => extractPropsGo fuel L { acc with receive_maximum := some v } s
      | 34 => -- TOPIC_ALIAS_MAXIMUM
        match getU16 s with
        | .panic => .panic
        | .ok (v, s) =>
          match subChk L 2 with
          | .panic => .panic
          | .ok L => extractPropsGo fuel L { acc with topic_alias_maximum := some v } s
      | 35 => -- TOPIC_ALIAS
        match getU16 s with
        | .panic => .panic
        | .ok (v, s) =>
          match subChk L 2 with
          | .panic => .panic
          | .ok L => extractPropsGo fuel L { acc with topic_alias := some v } s
      | 36 => -- MAXIMUM_QOS
        match getU8 s with
        | .panic => .panic
        | .ok (v, s) =>
          match subChk L 1 with
          | .panic => .panic
          | .ok L => extractPropsGo fuel L { acc with maximum_qos := some v } s
      | 37 => -- RETAIN_AVAILABLE
        match getU8 s with
        | .panic => .panic
        | .ok (v, s) =>
          match subChk L 1 with
          | .panic => .panic
          | .ok L => extractPropsGo fuel L { acc with retain_available := some v } s
      | 38 => -- USER_PROPERTY
        match decode_utf_string_pair s with
        | .panic => .panic
        | .ok (v, len, s) =>
          match subChk L len with
          | .panic => .panic
          | .ok L => extractPropsGo fuel L { acc with user_property := some v } s
      | 39 => -- MAXIMUM_PACKET_SIZE
        match getU32 s with
        | .panic => .panic
        | .ok (v, s) =>
          match subChk L 4 with
          | .panic => .panic
          | .ok L => extractPropsGo fuel L { acc with maximum_packet_size := some v } s
      | 40 => -- WILDCARD_SUBSCRIPTION_AVAILABLE
        match getU8 s with
        | .panic => .panic
        | .ok (v, s) =>
          match subChk L 1 with
          | .panic => .panic
          | .ok L => extractPropsGo fuel L { acc with wildcard_subscription_available := some v } s
      | 41 => -- SUBSCRIPTION_IDENTIFIER_AVAILABLE
        match getU8 s with
        | .panic => .panic
        | .ok (v, s) =>
          match subChk L 1 with
          | .panic => .panic
          | .ok L => extractPropsGo fuel L { acc with subscription_identifier_available := some v } s
      | 42 => -- SHARED_SUBSCRIPTION_AVAILABLE
        match getU8 s with
        | .panic => .panic
        | .ok (v, s) =>
          match subChk L 1 with
          | .panic => .panic
          | .ok L => extractPropsGo fuel L { acc with shared_subscription_available := some v } s
      | _ => .ok (.error .InvalidProperty, s)

/-- `extract_properties` (src/mqtt5bytes/src/control/properties.rs lines
70-268): read a variable-byte length; a zero length yields `None`, otherwise
the property loop runs until the length is consumed. -/
def extract_properties (stream : List Nat) :
    Pan (Except Err (Option Properties) × List Nat) :=
  match decode_variable_byte stream with
  | .panic => .panic
  | .ok (.error e, _, s) => .ok (.error e, s)
  | .ok (.ok propLength, _, s) =>
    if propLength > 0 then
      match extractPropsGo (s.length + 1) propLength {} s with
      | .panic => .panic
      | .ok (.error e, s) => .ok (.error e, s)
      | .ok (.ok props, s) => .ok (.ok (some props), s)
    else
      .ok (.ok none, s)

/-- QoS levels (mqtt5bytes `src/mqtt5bytes/src/enums.rs`). -/
inductive QoS where
  | AtMostOnce
  | AtLeastOnce
  | ExactlyOnce
deriving DecidableEq, Repr

/-- Numeric value of a QoS level, used for the `>` comparisons of the
subscription code (mqtt4 QoS derives its order from the variant order). -/
def QoS.toNat : QoS → Nat
  | .AtMostOnce => 0
  | .AtLeastOnce => 1
  | .ExactlyOnce => 2

/-- `qos` (src/mqtt5bytes/src/control/mod.rs lines 36-43). -/
def qos (num : Nat) : Except Err QoS :=
  match num with
  | 0 => .ok .AtMostOnce
  | 1 => .ok .AtLeastOnce
  | 2 => .ok .ExactlyOnce
  | q => .error (.InvalidQoS q)

/-- Alias for `qos` usable where that name is shadowed by the `Publish.qos`
field projection. -/
def qosFromNum (num : Nat) : Except Err QoS := qos num

/-- `FixedHeader` (declared in src/mqtt5bytes/src/header.rs, which is not
under src/; its three fields are used exactly as spec.md §3 describes:
first byte, header byte count, remaining-length value). -/
structure FixedHeader where
  byte1 : Nat
  header_len : Nat
  remaining_len : Nat
deriving DecidableEq, Repr

/-- `PublishProperties` (src/mqtt5bytes/src/control/publish.rs lines 9-18). -/
structure PublishProperties where
  payload_format_indicator : Option Nat
  message_expiry_interval : Option Nat
  topic_alias : Option Nat
  response_topic : Option (List Nat)
  correlation_data : Option (List Nat)
  user_property : Option (List Nat × List Nat)
  subscription_identifier : Option Nat
  content_type : Option (List Nat)
deriving DecidableEq, Repr

/-- `Publish` (src/mqtt5bytes/src/control/publish.rs lines 21-30); the topic
`String` is modelled by its UTF-8 byte list. -/
structure Publish where
  qos : QoS
  pkid : Nat
  topic : List Nat
  payload : List Nat
  dup : Bool
  retain : Bool
  bytes : List Nat
  properties : Option PublishProperties
deriving DecidableEq, Repr

/-- `Publish::assemble` (src/mqtt5bytes/src/control/publish.rs lines 33-94):
clone the packet bytes, take QoS/dup/retain from the fixed-header byte,
advance past the fixed header, read the topic, read the packet id when
QoS > 0 and reject a zero id, then run the property extractor over the
original (un-advanced) packet bytes. -/
def Publish.assemble (fixed_header : FixedHeader) (bytes : List Nat) :
    Pan (Except Err Publish) :=
  match qosFromNum ((fixed_header.byte1 &&& 0b0110) >>> 1) with
  | .error e => .ok (.error e)
  | .ok q =>
    let dup := fixed_header.byte1 &&& 0b1000 ≠ 0
    let retain := fixed_header.byte1 &&& 0b0001 ≠ 0
    match bufAdvance fixed_header.header_len bytes with
    | .panic => .panic
    | .ok payload =>
      match extract_mqtt_string payload with
      | .panic => .panic
      | .ok (.error e, _) => .ok (.error e)
      | .ok (.ok topic, payload) =>
        let pkidRead : Pan (Nat × List Nat) :=
          match q with
          | .AtMostOnce => .ok (0, payload)
          | _ => getU16 payload
        match pkidRead with
        | .panic => .panic
        | .ok (pkid, payload) =>
          if q ≠ .AtMostOnce ∧ pkid = 0 then .ok (.error .PacketIdZero)
          else
            match extract_properties bytes with
            | .panic => .panic
            | .ok (.error e, _) => .ok (.error e)
            | .ok (.ok props, bytes) =>
              let properties := props.map fun p =>
                { payload_format_indicator := p.payload_format_indicator
                  message_expiry_interval := p.message_expiry_interval
                  topic_alias := p.topic_alias
                  response_topic := p.response_topic
                  correlation_data := p.correlation_data
                  user_property := p.user_property
                  subscription_identifier := p.subscription_identifier
                  content_type := p.content_type : PublishProperties }
              .ok (.ok { qos := q, pkid, topic, payload, dup, retain, bytes, properties })

/-- Control packet types (src/mqtt5bytes/src/enums.rs). -/
inductive PacketType where
  | Connect | ConnAck | Publish | PubAck | PubRec | PubRel | PubComp
  | Subscribe | SubAck | Unsubscribe | UnsubAck
  | PingReq | PingResp | Disconnect | Auth
deriving DecidableEq, Repr

/-- `packet_type` (src/mqtt5bytes/src/lib.rs lines 43-62). -/
def packet_type (num : Nat) : Except Err PacketType :=
  match num with
  | 1 => .ok .Connect
  | 2 => .ok .ConnAck
  | 3 => .ok .Publish
  | 4 => .ok .PubAck
  | 5 => .ok .PubRec
  | 6 => .ok .PubRel
  | 7 => .ok .PubComp
  | 8 => .ok .Subscribe
  | 9 => .ok .SubAck
  | 10 => .ok .Unsubscribe
  | 11 => .ok .UnsubAck
  | 12 => .ok .PingReq
  | 13 => .ok .PingResp
  | 14 => .ok .Disconnect
  | 15 => .ok .Auth
  | t => .error (.InvalidPacketType t)

/-- Decoded packets as far as `mqtt_read` can produce them.  Only the
Publish assembler is embedded (`Publish.assemble` above); the constructor
`assembled` stands for the results of the other per-type assemblers, which
`mqtt_read_never_returns_a_packet` below proves are dead code: the length
guard of `mqtt_read` always fails first because `parse_fixed_header` drains
the buffer. -/
inductive Packet where
  | pingReq
  | pingResp
  | publish (p : Publish)
  | assembled (t : PacketType)
deriving DecidableEq, Repr

/-- `header_len` (src/mqtt5bytes/src/read.rs lines 81-91). -/
def header_len (remaining_len : Nat) : Nat :=
  if remaining_len ≥ 2097152 then 4 + 1
  else if remaining_len ≥ 16384 then 3 + 1
  else if remaining_len ≥ 128 then 2 + 1
  else 1 + 1

/-- `parse_fixed_header` (src/mqtt5bytes/src/read.rs lines 71-79): an empty
stream is `UnexpectedEof`; otherwise `get_u8` pops the first byte and
`stream.to_bytes()` (bytes 0.5) drains the whole `BytesMut` into a
temporary, so after the call the stream is empty no matter how much of the
temporary the variable-byte decoder consumed. -/
def parse_fixed_header (stream : List Nat) :
    Pan (Except Err (Nat × Nat) × List Nat) :=
  match stream with
  | [] => .ok (.error .UnexpectedEof, [])
  | byte1 :: rest =>
    match decode_variable_byte rest with
    | .panic => .panic
    | .ok (.error e, _, _) => .ok (.error e, [])
    | .ok (.ok len, _, _) => .ok (.ok (byte1, len), [])

/-- `mqtt_read` (src/mqtt5bytes/src/read.rs lines 6-69).  `stream.reserve`
calls only affect capacity and are modelled as no-ops.  The final result
pairs the decode outcome with the bytes left in the stream. -/
def mqtt_read (stream : List Nat) (max_payload_size : Nat) :
    Pan (Except Err Packet × List Nat) :=
  match parse_fixed_header stream with
  | .panic => .panic
  | .ok (.error e, stream) => .ok (.error e, stream)
  | .ok (.ok (byte1, remaining_len), stream) =>
    let headerLen := header_len remaining_len
    let len := headerLen + remaining_len
    if remaining_len > max_payload_size then
      .ok (.error .PayloadSizeLimitExceeded, stream)
    else if stream.length < len then
      .ok (.error .UnexpectedEof, stream)
    else
      match splitTo len stream with
      | .panic => .panic
      | .ok (packet, stream) =>
        match packet_type (byte1 >>> 4) with
        | .error e => .ok (.error e, stream)
        | .ok controlType =>
          if remaining_len = 0 then
            match controlType with
            | .PingReq => .ok (.ok .pingReq, stream)
            | .PingResp => .ok (.ok .pingResp, stream)
            | _ => .ok (.error .PayloadRequired, stream)
          else
            let fh : FixedHeader := ⟨byte1, headerLen, remaining_len⟩
            match controlType with
            | .Publish =>
              match Publish.assemble fh packet with
              | .panic => .panic
              | .ok (.error e) => .ok (.error e, stream)
              | .ok (.ok p) => .ok (.ok (.publish p), stream)
            | .PingReq => .ok (.ok .pingReq, stream)
            | .PingResp => .ok (.ok .pingResp, stream)
            | t => .ok (.ok (.assembled t), stream)

/-- Detector for `mqtt_read` outcomes that are not a successfully decoded
packet (a panic or an error). -/
def isNoPacket : Pan (Except Err Packet × List Nat) → Bool
  | .ok (.ok _, _) => false
  | _ => true

theorem header_len_pos (n : Nat) : 0 < header_len n := by
  unfold header_len
  split_ifs <;> omega

/-- Helper: `mqtt_read` can never reach a decoded packet, because
`parse_fixed_header` drains the buffer and the subsequent length guard
`stream.len() < len` therefore always fires (the fixed header alone is at
least two bytes). -/
theorem mqtt_read_no_packet (s : List Nat) (m : Nat) :
    isNoPacket (mqtt_read s m) = true := by
  cases s with
  | nil => rfl
  | cons b rest =>
    unfold mqtt_read parse_fixed_header
    cases h : decode_variable_byte rest with
    | panic => simp [h, isNoPacket]
    | ok v =>
      obtain ⟨res, blen, s2⟩ := v
      cases res with
      | error e => simp [h, isNoPacket]
      | ok n =>
        have hlen : 0 < header_len n + n := by
          have := header_len_pos n
          omega
        by_cases hmax : m < n
        · simp [h, hmax, isNoPacket]
        · simp [h, hmax, hlen, isNoPacket]

/-- C2: For every byte buffer that begins with a complete valid encoding of
one packet whose remaining_len is within max_payload_size, mqtt_read returns
that packet and removes exactly header_len + remaining_len bytes from the
front of the buffer, leaving every following byte in place.

The claim is false of the code: `parse_fixed_header` consumes the whole
buffer (`stream.to_bytes()` drains the `BytesMut`), so the length guard in
`mqtt_read` always fails and no packet is ever returned.  Shown on the
complete two-byte PingReq packet 0xC0 0x00 and on the complete QoS-1 publish
stream of the source's own `qos1_publish_stitching_works_correctly` test
(which expects a decoded Publish with the four trailing bytes left over),
and in general: `mqtt_read` never returns a packet on any input. -/
theorem c2_mqtt_read_never_yields_a_packet :
    mqtt_read [0xC0, 0x00] 100 = .ok (.error .UnexpectedEof, []) ∧
    mqtt_read [0x32, 11, 0x00, 0x03, 97, 47, 98, 0x00, 0x0A,
               0xF1, 0xF2, 0xF3, 0xF4, 0xDE, 0xAD, 0xBE, 0xEF] 100 =
      .ok (.error .UnexpectedEof, []) ∧
    (∀ s m, isNoPacket (mqtt_read s m) = true) :=
  ⟨rfl, rfl, mqtt_read_no_packet⟩

/-- C3: For every proper leading part of a valid packet encoding, mqtt_read
returns UnexpectedEof — never a different error and never a panic — and when
the fixed header was fully readable it requests a buffer reserve of
remaining_len + 2 before returning the error.

The claim is false of the code: a one-byte leading part of the valid QoS-1
publish encoding (first byte 0x32) panics, because `parse_fixed_header`
hands the empty remainder to `decode_variable_byte`, whose `get_u8` panics
on an empty buffer; a two-byte part cut inside the variable-byte length
(0x10 0x80) panics the same way.  A part that still contains the whole
fixed header (0x32 0x0B 0x00) does return UnexpectedEof. -/
theorem c3_short_input_panics :
    mqtt_read [0x32] 100 = .panic ∧
    mqtt_read [0x10, 0x80] 100 = .panic ∧
    mqtt_read [0x32, 0x0B, 0x00] 100 = .ok (.error .UnexpectedEof, []) :=
  ⟨rfl, rfl, rfl⟩

/-- C8: extract_properties reads a variable-byte length L, returning absent
when L = 0; otherwise it repeatedly reads a 1-byte identifier and the typed
value given by the §4.2 table — in particular identifier 1 is
payload_format_indicator (a byte) and identifier 11 is
subscription_identifier (a variable-byte integer) — decrementing L by 1 plus
the value's byte length; an identifier outside the table fails with
InvalidProperty.

The claim is false of the code: the source maps payload_format_indicator to
identifier 0, so the MQTT identifier 1 falls through to InvalidProperty,
and it reads subscription_identifier with `get_u32` (four fixed bytes), so
the one-byte variable-byte encoding of 7 under identifier 11 panics instead
of decoding.  The L = 0 case does return absent, identifier 0 is decoded as
payload_format_indicator, and a four-byte value under identifier 11 is
accepted as subscription_identifier. -/
theorem c8_property_table_diverges :
    extract_properties [0] = .ok (.ok none, []) ∧
    extract_properties [2, 1, 0] = .ok (.error .InvalidProperty, [0]) ∧
    extract_properties [2, 11, 7] = .panic ∧
    extract_properties [5, 11, 0, 0, 0, 7] =
      .ok (.ok (some { subscription_identifier := some 7 }), []) ∧
    extract_properties [2, 0, 7] =
      .ok (.ok (some { payload_format_indicator := some 7 }), []) :=
  ⟨rfl, rfl, rfl, rfl, rfl⟩

/-- Helper: the `while strlen != 0` loop of `decode_utf_string` never
terminates normally for a nonzero declared length — it panics after draining
the stream, because `strlen` is never decremented. -/
theorem decodeUtfDrain_nonzero_panics (n : Nat) :
    ∀ (data s : List Nat), decodeUtfDrain (n + 1) data s = .panic := by
  intro data s
  induction s generalizing data with
  | nil => simp [decodeUtfDrain]
  | cons b rest ih => simpa [decodeUtfDrain] using ih (data ++ [b])

/-- C10: Each primitive decoder (UTF-8 string, UTF-8 pair, binary data),
applied to a cursored buffer containing a complete well-formed value,
terminates and advances the cursor by exactly the bytes consumed, returning
that byte count for the property decoder's length accounting.

The claim is false of the code: `decode_utf_string` never decrements
`strlen`, so for any declared length other than zero its read loop drains
the entire buffer and then panics in `get_u8` (shown in general, and on the
complete well-formed one-character string 0x00 0x01 0x61).  The pair decoder
inherits the panic.  The other primitives do conform: `extract_mqtt_string`
and `decode_binary_data` consume exactly 2 + declared-length bytes and
return that count. -/
theorem c10_utf_string_decoder_diverges :
    (∀ n data s, decodeUtfDrain (n + 1) data s = Pan.panic) ∧
    decode_utf_string [0x00, 0x01, 0x61] = .panic ∧
    decode_utf_string_pair [0x00, 0x01, 0x61, 0x00, 0x00] = .panic ∧
    extract_mqtt_string [0x00, 0x01, 0x61, 0x07] = .ok (.ok [0x61], [0x07]) ∧
    decode_binary_data [0x00, 0x02, 0x05, 0x06, 0x09] =
      .ok (.ok [0x05, 0x06], 4, [0x09]) := by
  refine ⟨fun n => decodeUtfDrain_nonzero_panics n, ?_, ?_, rfl, rfl⟩
  · show (match decodeUtfDrain 1 [] [0x61] with
      | .panic => Pan.panic
      | .ok (data, rest) =>
        if isValidUtf8 data then .ok (.ok data, 3, rest)
        else .ok (.error Err.UnexpectedEof, 3, rest)) = Pan.panic
    rfl
  · rfl

/-- C9: For every decoded Publish packet: if its QoS is 0 the packet id is 0;
if its QoS is greater than 0, decoding either yields a nonzero packet id or
fails with PacketIdZero.  First clause: any successfully assembled Publish
has pkid = 0 exactly when its QoS is AtMostOnce.  Second clause: when the
QoS from the fixed-header byte is above 0 and the two bytes at the packet-id
position are zero, assembly rejects with PacketIdZero. -/
theorem c9_publish_pkid_contract :
    (∀ fh bs p, Publish.assemble fh bs = .ok (.ok p) →
      (p.qos = QoS.AtMostOnce → p.pkid = 0) ∧
      (p.qos ≠ QoS.AtMostOnce → p.pkid ≠ 0)) ∧
    (∀ fh bs q pay topic pay2 rest,
      qosFromNum ((fh.byte1 &&& 0b0110) >>> 1) = .ok q →
      q ≠ QoS.AtMostOnce →
      bufAdvance fh.header_len bs = .ok pay →
      extract_mqtt_string pay = .ok (.ok topic, pay2) →
      getU16 pay2 = .ok (0, rest) →
      Publish.assemble fh bs = .ok (.error .PacketIdZero)) := by
  constructor
  · intro fh bs p hp
    unfold Publish.assemble at hp
    simp only [] at hp
    repeat' split at hp
    all_goals first
      | (simp only [Pan.ok.injEq, Except.ok.injEq] at hp
         subst hp
         constructor
         · intro h1
           simp only at h1 ⊢
           subst h1
           simp_all
         · intro h1 h2
           simp only at h1 h2
           tauto)
      | simp at hp
  · intro fh bs q pay topic pay2 rest hqos hq hadv hstr hu
    unfold Publish.assemble
    simp only [hqos, hadv, hstr]
    cases q with
    | AtMostOnce => exact absurd rfl hq
    | AtLeastOnce => simp [hu]
    | ExactlyOnce => simp [hu]

/-- Witness for C9: a QoS-0 packet assembles with pkid 0, a QoS-1 packet
with packet-id bytes 0x00 0x0A assembles with pkid 10 ≠ 0, and a QoS-1
packet whose packet-id bytes are zero is rejected with PacketIdZero. -/
theorem c9_publish_pkid_contract_witness :
    (({ qos := .AtMostOnce, pkid := 0, topic := [], payload := [],
        dup := false, retain := false, bytes := [0, 0, 0],
        properties := none } : Publish).pkid = 0) ∧
    (({ qos := .AtLeastOnce, pkid := 10, topic := [], payload := [],
        dup := true, retain := false, bytes := [0, 0, 0, 0, 10],
        properties := none } : Publish).pkid ≠ 0) ∧
    Publish.assemble ⟨0x32, 2, 0⟩ [0, 0, 0, 0, 0, 0] =
      .ok (.error .PacketIdZero) := by
  refine ⟨?_, ?_, ?_⟩
  · exact (c9_publish_pkid_contract.1 ⟨0x30, 2, 0⟩ [0, 0, 0, 0] _ rfl).1 rfl
  · exact (c9_publish_pkid_contract.1 ⟨0x3A, 2, 0⟩ [0, 0, 0, 0, 0, 10] _ rfl).2
      (by decide)
  · exact c9_publish_pkid_contract.2 ⟨0x32, 2, 0⟩ [0, 0, 0, 0, 0, 0]
      .AtLeastOnce [0, 0, 0, 0] [] [0, 0] [] rfl (by decide) rfl rfl rfl

/-- Lookup in an association list, modelling `HashMap::get`. -/
def alistGet {κ α : Type} [DecidableEq κ] (k : κ) : List (κ × α) → Option α
  | [] => none
  | (k2, v) :: rest => if k2 = k then some v else alistGet k rest

/-- Insert into an association list, modelling `HashMap::insert`: replace the
value in place when the key is present, append otherwise. -/
def alistInsert {κ α : Type} [DecidableEq κ] (k : κ) (v : α) :
    List (κ × α) → List (κ × α)
  | [] => [(k, v)]
  | (k2, v2) :: rest =>
    if k2 = k then (k, v) :: rest else (k2, v2) :: alistInsert k v rest

/-- Removal from an association list, modelling `HashMap::remove`. -/
def alistRemove {κ α : Type} [DecidableEq κ] (k : κ) : List (κ × α) → List (κ × α)
  | [] => []
  | (k2, v2) :: rest =>
    if k2 = k then rest else (k2, v2) :: alistRemove k rest

/-- Modelled from the spec: the `rumq_core::mqtt4::Publish` data carrier used
by the broker is not under src/.  Spec §3 and the broker's field uses give its
fields: dup, qos, retain flag, topic name, optional packet id, payload. -/
structure MPublish where
  dup : Bool
  qos : QoS
  retain : Bool
  topic_name : String
  pkid : Option Nat
  payload : List Nat
deriving DecidableEq, Repr

/-- Modelled from the spec: the `rumq_core::mqtt4::publish` constructor
(not under src/) builds a plain publish with dup and retain cleared and no
packet id. -/
def mkPublish (topic : String) (q : QoS) (payload : List Nat) : MPublish :=
  { dup := false, qos := q, retain := false, topic_name := topic,
    pkid := none, payload := payload }

/-- `Messages` (src/rumq-broker/src/router/commitlog.rs lines 13-20). -/
structure Messages where
  segment_id : Nat
  log_offset : Nat
  packets : List MPublish
deriving DecidableEq, Repr

/-- `Segment` (src/rumq-broker/src/router/commitlog.rs lines 23-34); the
creation timestamp is omitted from the model because no embedded operation
reads it. -/
structure Segment where
  id : Nat
  current_size : Nat
  max_size : Nat
  packets : List MPublish
deriving DecidableEq, Repr

/-- `Segment::new` (src/rumq-broker/src/router/commitlog.rs lines 37-47). -/
def Segment.new (id : Nat) (max_size : Nat) : Segment :=
  { id, current_size := 0, max_size, packets := [] }

/-- `Segment::fill` (src/rumq-broker/src/router/commitlog.rs lines 51-61):
push the publish, grow the size by the payload length, and report the offset
of the last element when the segment becomes full. -/
def Segment.fill (seg : Segment) (p : MPublish) : Segment × Option Nat :=
  let payload_size := p.payload.length
  let packets := seg.packets ++ [p]
  let current_size := seg.current_size + payload_size
  let seg := { seg with packets, current_size }
  if current_size ≥ seg.max_size then (seg, some (packets.length - 1))
  else (seg, none)

/-- `CommitLog` (src/rumq-broker/src/router/commitlog.rs lines 65-70); the
`partitions` hash map is modelled as an association list (the source's typo
`max_segement_size` is kept). -/
structure CommitLog where
  partitions : List (String × List Segment)
  max_segement_size : Nat
  segments_per_partition : Nat
  current_segment_id : Nat
deriving DecidableEq, Repr

/-- `CommitLog::new` (src/rumq-broker/src/router/commitlog.rs lines 73-78). -/
def CommitLog.new (max_segement_size segments_per_partition : Nat) : CommitLog :=
  { partitions := [], max_segement_size, segments_per_partition,
    current_segment_id := 0 }

/-- `CommitLog::fill` (src/rumq-broker/src/router/commitlog.rs lines
80-107): fill the tail segment of the topic's partition
(`segments.last_mut().unwrap()` panics on an empty partition vector); when
it becomes full, drop the head segment if the partition is at its segment
limit and push a fresh segment with the next global id.  A missing partition
is created with a segment of id 0. -/
def CommitLog.fill (log : CommitLog) (publish : MPublish) : Pan CommitLog :=
  match alistGet publish.topic_name log.partitions with
  | some segments =>
    match segments.getLast? with
    | none => .panic
    | some lastSeg =>
      let (lastSeg, full) := lastSeg.fill publish
      let segments := segments.dropLast ++ [lastSeg]
      match full with
      | some _ =>
        let segments :=
          if segments.length ≥ log.segments_per_partition then segments.drop 1
          else segments
        let current_segment_id := log.current_segment_id + 1
        let segments := segments ++ [Segment.new current_segment_id log.max_segement_size]
        .ok { log with
              partitions := alistInsert publish.topic_name segments log.partitions,
              current_segment_id }
      | none =>
        .ok { log with
              partitions := alistInsert publish.topic_name segments log.partitions }
  | none =>
    let topic := publish.topic_name
    let (segment, _) := (Segment.new 0 log.max_segement_size).fill publish
    .ok { log with partitions := alistInsert topic [segment] log.partitions }

/-- The per-segment collection loop of `CommitLog::get`
(src/rumq-broker/src/router/commitlog.rs lines 133-159).  When the requested
offset is absent in a segment the offset is reset to 0 and the segment
skipped; when elements are taken but the count is not yet satisfied the loop
proceeds to the next segment with the SAME offset.  The assignment
`messages.log_offset = log_offset + o.len() - 1` is a `usize` subtraction
and is modelled with `subChk`. -/
def commitLogGetGo : List Segment → Nat → Nat → Messages → Pan (Option Messages)
  | [], _, _, msgs => .ok (if msgs.packets.length > 0 then some msgs else none)
  | seg :: rest, log_offset, count, msgs =>
    match seg.packets.get? log_offset with
    | none => commitLogGetGo rest 0 count msgs
    | some _ =>
      let o := (seg.packets.drop log_offset).take count
      let collected := o.length
      match subChk (log_offset + collected) 1 with
      | .panic => .panic
      | .ok lastOff =>
        let msgs := { segment_id := seg.id, log_offset := lastOff,
                      packets := msgs.packets ++ o }
        if collected ≥ count then .ok (some msgs)
        else commitLogGetGo rest log_offset (count - collected) msgs

/-- `CommitLog::get` (src/rumq-broker/src/router/commitlog.rs lines
111-160): locate the segment index from the requested segment id (index 0
when the first surviving segment's id is at least the requested one), bail
out on an out-of-range index, then collect up to `count` publishes. -/
def CommitLog.get (log : CommitLog) (topic : String)
    (segment_id log_offset count : Nat) : Pan (Option Messages) :=
  match alistGet topic log.partitions with
  | none => .ok none
  | some segments =>
    match segments.head? with
    | none => .ok none
    | some firstSeg =>
      let segment_index := if firstSeg.id ≥ segment_id then 0 else segment_id - firstSeg.id
      if segment_index ≥ segments.length then .ok none
      else commitLogGetGo (segments.drop segment_index) log_offset count
        { segment_id := 0, log_offset := 0, packets := [] }

/-- Sequence of `CommitLog::fill` calls. -/
def fillAll : CommitLog → List MPublish → Pan CommitLog
  | log, [] => .ok log
  | log, p :: rest =>
    match log.fill p with
    | .panic => .panic
    | .ok log => fillAll log rest

/-- `CommitLog::get` run on the log produced by a sequence of fills. -/
def getAfterFill (init : CommitLog) (ps : List MPublish) (topic : String)
    (segment_id log_offset count : Nat) : Pan (Option Messages) :=
  match fillAll init ps with
  | .panic => .panic
  | .ok log => log.get topic segment_id log_offset count

/-- Publish number `i` used in the commit-log scenarios (payload one byte,
so two publishes fill a segment of max size 2). -/
def c4pub (i : Nat) : MPublish := mkPublish "t" .AtLeastOnce [i]

/-- C4: For every topic partition and cursor (segment_id, log_offset),
CommitLog::get returns up to count publishes starting at that cursor,
advancing across segment boundaries (continuing from offset 0 of each
subsequent segment) until count is satisfied or the partition ends; the
returned Messages carries the segment id and log offset of the last element
delivered; a cursor naming an evicted segment id is clamped forward to the
first surviving segment's id at offset 0; get never panics and returns None
when nothing is available.

The claim is false of the code in two ways, shown on a log built from four
one-byte publishes with segment capacity 2 (segments of id 0 and 1 holding
two publishes each, plus an empty tail segment).  First, with cursor (0, 1)
and count 3 the code takes publish 1 from segment 0 and then continues in
segment 1 at the SAME offset 1, silently skipping publish 2 — continuation
from offset 0 happens only when the offset is absent in the segment (third
conjunct, the case their own test exercises).  Second, with the segment
limit set to 2 so that segment 0 is evicted, the stale cursor (0, 1) is
clamped to the surviving segment 1 but keeps offset 1, returning only
publish 3 instead of publishes 2 and 3 from offset 0.  Lookups past the
partition or on unknown topics do return None. -/
theorem c4_commitlog_get_skips_messages :
    getAfterFill (CommitLog.new 2 10) [c4pub 0, c4pub 1, c4pub 2, c4pub 3]
      "t" 0 1 3 = .ok (some ⟨1, 1, [c4pub 1, c4pub 3]⟩) ∧
    ([c4pub 1, c4pub 3] == [c4pub 1, c4pub 2, c4pub 3]) = false ∧
    getAfterFill (CommitLog.new 2 10) [c4pub 0, c4pub 1, c4pub 2, c4pub 3]
      "t" 0 2 2 = .ok (some ⟨1, 1, [c4pub 2, c4pub 3]⟩) ∧
    getAfterFill (CommitLog.new 2 2) [c4pub 0, c4pub 1, c4pub 2, c4pub 3]
      "t" 0 1 10 = .ok (some ⟨1, 1, [c4pub 3]⟩) ∧
    ([c4pub 3] == [c4pub 2, c4pub 3]) = false ∧
    getAfterFill (CommitLog.new 2 10) [c4pub 0, c4pub 1, c4pub 2, c4pub 3]
      "t" 5 0 10 = .ok none ∧
    getAfterFill (CommitLog.new 2 10) [c4pub 0, c4pub 1, c4pub 2, c4pub 3]
      "u" 0 0 10 = .ok none := by
  refine ⟨rfl, by decide, rfl, rfl, by decide, rfl, rfl⟩

/-- Topic names and topic filters of the subscription index, modelled
pre-split into their `/`-separated levels (the wildcard operations below are
spec-modelled level-wise, so `a/b/c` is `["a", "b", "c"]`). -/
abbrev Topic := List String

/-- Modelled from the spec: `rumq_core::mqtt4::has_wildcards` is not under
src/.  Spec glossary: a wildcard filter contains `+` or `#`. -/
def has_wildcards (filter : Topic) : Bool :=
  filter.contains "+" || filter.contains "#"

/-- Modelled from the spec: `rumq_core::mqtt4::matches topic filter` is not
under src/ (the source name `matches` is a Lean keyword, hence the name).
Spec §8: `a/+/c` matches `a/x/c` and `a/y/c` but not `a/x/y/c`; `a/#`
matches any topic beginning with `a/`: a `+` level matches one topic level,
a final `#` level matches all remaining levels. -/
def mqttMatches : (topic filter : Topic) → Bool
  | _, ["#"] => true
  | [], [] => true
  | _ :: ts, "+" :: fs => mqttMatches ts fs
  | t :: ts, f :: fs => t = f && mqttMatches ts fs
  | _, _ => false

/-- `Subscription` (src/rumq-broker/src/router/connection.rs lines 149-166):
QoS plus the `(segment_id, log_offset)` cursor, starting at (0, 0). -/
structure Subscription where
  qos : QoS
  offset : Nat × Nat
deriving DecidableEq, Repr

/-- `Subscription::new` (src/rumq-broker/src/router/connection.rs). -/
def Subscription.new (q : QoS) : Subscription := { qos := q, offset := (0, 0) }

/-- Modelled from the spec: `rumq_core::mqtt4::LastWill` is not under src/.
Spec §3 and the uses in router.rs (will.topic, will.message, will.qos) give
topic, message, QoS and retain flag; the message `String` is modelled by its
bytes. -/
structure LastWill where
  topic : String
  message : List Nat
  qos : QoS
  retain : Bool
deriving DecidableEq, Repr

/-- Modelled from the spec: `crate::state::MqttState` (the broker's
src/state.rs) is not under src/.  Spec §3: session state carries the
clean-session flag, the optional will, and (for inactive sessions) the
queued outbound publishes; `MqttState::new(clean_session, will)` starts with
an empty queue. -/
structure MqttState where
  clean_session : Bool
  will : Option LastWill
  outgoing_publishes : List MPublish
deriving DecidableEq, Repr

/-- Modelled from the spec: `MqttState::new(clean_session, will)` starts a
fresh session with an empty outbound queue. -/
def MqttState.new (clean_session : Bool) (will : Option LastWill) : MqttState :=
  { clean_session, will, outgoing_publishes := [] }

/-- QoS maximum as the source writes it: `if subscription.qos > qos { qos =
subscription.qos }` (mqtt4 QoS orders by variant). -/
def qosRaise (existing working : QoS) : QoS :=
  if existing.toNat > working.toNat then existing else working

/-- `ActiveConnection` (src/rumq-broker/src/router/connection.rs lines
9-19): session state plus the concrete and wildcard subscription maps,
modelled as association lists (the tokio channel sender `tx` is an I/O
handle and is omitted; no subscription operation reads it). -/
structure ActiveConnection where
  state : MqttState
  concrete_subscriptions : List (Topic × Subscription)
  wild_subscriptions : List (Topic × Subscription)
deriving DecidableEq, Repr

/-- `ActiveConnection::new` (src/rumq-broker/src/router/connection.rs). -/
def ActiveConnection.new (state : MqttState) : ActiveConnection :=
  { state, concrete_subscriptions := [], wild_subscriptions := [] }

/-- `ActiveConnection::fix_overlapping_subscriptions`
(src/rumq-broker/src/router/connection.rs lines 73-124).  Only a wildcard
current filter triggers the two scans: the concrete map contributes matching
filters to the prune list raising the QoS; the wild map additionally adopts
an existing wider filter as the final key.  When anything was pruned, the
pruned keys are removed from both maps and the final (filter, subscription)
is returned.  The hash-map iteration order is modelled by the association
list order. -/
def fix_overlapping_subscriptions (conn : ActiveConnection)
    (current_filter : Topic) (q : QoS) :
    ActiveConnection × Option (Topic × Subscription) :=
  let (filter, q, prune_list) :=
    if has_wildcards current_filter then
      let (q1, prune1) := conn.concrete_subscriptions.foldl
        (fun (acc : QoS × List Topic) kv =>
          if mqttMatches kv.1 current_filter then
            (qosRaise kv.2.qos acc.1, acc.2 ++ [kv.1])
          else acc)
        (q, [])
      conn.wild_subscriptions.foldl
        (fun (acc : Topic × QoS × List Topic) kv =>
          if mqttMatches kv.1 current_filter then
            (acc.1, qosRaise kv.2.qos acc.2.1, acc.2.2 ++ [kv.1])
          else if mqttMatches current_filter kv.1 then
            (kv.1, qosRaise kv.2.qos acc.2.1, acc.2.2 ++ [kv.1])
          else acc)
        (current_filter, q1, prune1)
    else (current_filter, q, [])
  if prune_list.length > 0 then
    let conn := prune_list.foldl
      (fun c f =>
        { c with concrete_subscriptions := alistRemove f c.concrete_subscriptions,
                 wild_subscriptions := alistRemove f c.wild_subscriptions })
      conn
    (conn, some (filter, Subscription.new q))
  else (conn, none)

/-- `ActiveConnection::add_to_subscriptions`
(src/rumq-broker/src/router/connection.rs lines 21-41): for each subscribed
(topic filter, QoS), run the overlap fix and insert the resulting
subscription into the wild or concrete map according to the final filter. -/
def add_to_subscriptions (conn : ActiveConnection)
    (topics : List (Topic × QoS)) : ActiveConnection :=
  topics.foldl
    (fun conn t =>
      let filter := t.1
      let subscriber := Subscription.new t.2
      let (conn, fixed) := fix_overlapping_subscriptions conn filter t.2
      let (filter, subscriber) :=
        match fixed with
        | some (f, s) => (f, s)
        | none => (filter, subscriber)
      if has_wildcards filter then
        { conn with wild_subscriptions :=
            alistInsert filter subscriber conn.wild_subscriptions }
      else
        { conn with concrete_subscriptions :=
            alistInsert filter subscriber conn.concrete_subscriptions })
    conn

/-- `ActiveConnection::remove_from_subscriptions`
(src/rumq-broker/src/router/connection.rs lines 126-134): both branches of
the source remove the topic from the wild map only. -/
def remove_from_subscriptions (conn : ActiveConnection)
    (topics : List Topic) : ActiveConnection :=
  topics.foldl
    (fun conn t =>
      if has_wildcards t then
        { conn with wild_subscriptions := alistRemove t conn.wild_subscriptions }
      else
        { conn with wild_subscriptions := alistRemove t conn.wild_subscriptions })
    conn

/-- Connection of the C7 scenario: subscribe to the wildcard filter `a/+`
first, then to the concrete filter `a/b`. -/
def c7conn : ActiveConnection :=
  add_to_subscriptions
    (add_to_subscriptions (ActiveConnection.new (MqttState.new true none))
      [(["a", "+"], .AtMostOnce)])
    [(["a", "b"], .AtMostOnce)]

/-- C7: After every add_to_subscriptions (with its overlap resolution) and
every remove_from_subscriptions on an ActiveConnection, no filter key is
present in both concrete_subscriptions and wild_subscriptions, and no
remaining filter matches another remaining filter under MQTT topic matching,
so the subscriber appears in at most one subscription for any topic.

The claim is false of the code: overlap resolution runs only when the NEW
filter is a wildcard, so subscribing to `a/+` and then to the concrete
filter `a/b` leaves `a/b` in the concrete map and `a/+` in the wild map even
though `a/b` matches `a/+` — the subscriber appears in two subscriptions for
topic `a/b`.  The opposite order does collapse (subscribing `a/b/c` and then
`a/+/c` leaves only `a/+/c` at the raised QoS).  In addition,
remove_from_subscriptions never removes a concrete filter: both of its
branches delete from the wild map, so unsubscribing `a/b` leaves the
concrete map unchanged. -/
theorem c7_overlap_invariant_fails :
    c7conn.concrete_subscriptions = [(["a", "b"], Subscription.new .AtMostOnce)] ∧
    c7conn.wild_subscriptions = [(["a", "+"], Subscription.new .AtMostOnce)] ∧
    mqttMatches ["a", "b"] ["a", "+"] = true ∧
    (add_to_subscriptions
        (add_to_subscriptions (ActiveConnection.new (MqttState.new true none))
          [(["a", "b", "c"], .AtMostOnce)])
        [(["a", "+", "c"], .AtLeastOnce)]).concrete_subscriptions = [] ∧
    (add_to_subscriptions
        (add_to_subscriptions (ActiveConnection.new (MqttState.new true none))
          [(["a", "b", "c"], .AtMostOnce)])
        [(["a", "+", "c"], .AtLeastOnce)]).wild_subscriptions =
      [(["a", "+", "c"], Subscription.new .AtLeastOnce)] ∧
    (remove_from_subscriptions c7conn [["a", "b"]]).concrete_subscriptions =
      c7conn.concrete_subscriptions := by
  refine ⟨rfl, rfl, rfl, rfl, rfl, rfl⟩

/-- `InactiveConnection` (src/rumq-broker/src/router/connection.rs lines
138-146, and identically src/rumq-broker/src/router.rs lines 196-207):
retained session state of a disconnected persistent client. -/
structure InactiveConnection where
  state : MqttState
deriving DecidableEq, Repr

/-- Modelled from the spec: the `rumq_core::mqtt4::Connect` packet is not
under src/; `handle_connect` reads exactly its client id, clean-session flag
and optional last will. -/
structure Connect where
  client_id : String
  clean_session : Bool
  last_will : Option LastWill
deriving DecidableEq, Repr

/-!
The router of src/rumq-broker/src/router/mod.rs.  The repository holds two
conflicting router implementations — the module directory
src/rumq-broker/src/router/ (whose commit log and connection types are
embedded above) and the standalone file src/rumq-broker/src/router.rs
(namespace `RouterA` below); `mod router` cannot resolve to both, so each is
embedded and the claims are settled against each.
-/
namespace RouterB

/-- `Router` (src/rumq-broker/src/router/mod.rs lines 64-73); the inbound
channel receiver is an I/O handle and is omitted. -/
structure Router where
  commitlog : CommitLog
  active_connections : List (String × ActiveConnection)
  inactive_connections : List (String × InactiveConnection)
deriving DecidableEq, Repr

/-- `Router::handle_connect` (src/rumq-broker/src/router/mod.rs lines
189-216).  The reply is modelled as `Option (List MPublish)`: `some q`
stands for `RouterMessage::Pending(q)` and `none` for no reply.  In the
non-clean reconnect arm the source computes `pending` but its
`Some(RouterMessage::Pending(pending))` reply is commented out (line 205)
and `None` is returned instead. -/
def handle_connect (r : Router) (connect : Connect) :
    Router × Option (List MPublish) :=
  let id := connect.client_id
  let clean_session := connect.clean_session
  let will := connect.last_will
  if clean_session then
    let r := { r with inactive_connections := alistRemove id r.inactive_connections }
    let state := MqttState.new clean_session will
    let r := { r with active_connections := alistInsert id (ActiveConnection.new state) r.active_connections }
    (r, some [])
  else
    match alistGet id r.inactive_connections with
    | some connection =>
      let r := { r with inactive_connections := alistRemove id r.inactive_connections }
      let _pending := connection.state.outgoing_publishes
      let r := { r with active_connections := alistInsert id (ActiveConnection.new connection.state) r.active_connections }
      (r, none)
    | none =>
      let state := MqttState.new clean_session will
      ({ r with active_connections := alistInsert id (ActiveConnection.new state) r.active_connections },
       some [])

/-- `Router::deactivate` (src/rumq-broker/src/router/mod.rs lines 225-233):
remove from the active map; a persistent session is moved to the inactive
map, a clean session is dropped. -/
def deactivate (r : Router) (id : String) : Router :=
  match alistGet id r.active_connections with
  | none => r
  | some connection =>
    let r := { r with active_connections := alistRemove id r.active_connections }
    if ¬ connection.state.clean_session then
      { r with inactive_connections := alistInsert id ⟨connection.state⟩ r.inactive_connections }
    else r

/-- `Router::deactivate_and_forward_will` (src/rumq-broker/src/router/mod.rs
lines 157-161): the body of the source is
`if let Some(_connection) = self.active_connections.remove(&id) {}` — the
connection is removed from the active map and dropped; nothing else
happens. -/
def deactivate_and_forward_will (r : Router) (id : String) : Router :=
  { r with active_connections := alistRemove id r.active_connections }

end RouterB

/-!
The standalone router of src/rumq-broker/src/router.rs (see the `RouterB`
comment above).
-/
namespace RouterA

/-- `Subscription` (src/rumq-broker/src/router.rs lines 209-220): QoS only,
no cursor. -/
structure Subscription where
  qos : QoS
deriving DecidableEq, Repr

/-- `ActiveConnection` (src/rumq-broker/src/router.rs lines 59-77); the
channel sender `tx` is omitted. -/
structure ActiveConnection where
  state : MqttState
  retained : List MPublish
  concrete_subscriptions : List (Topic × Subscription)
  wild_subscriptions : List (Topic × Subscription)
deriving DecidableEq, Repr

/-- `ActiveConnection::new` (src/rumq-broker/src/router.rs lines 68-77). -/
def ActiveConnection.new (state : MqttState) : ActiveConnection :=
  { state, retained := [], concrete_subscriptions := [],
    wild_subscriptions := [] }

/-- `Router` (src/rumq-broker/src/router.rs lines 222-234): here the commit
log is a plain map from topic to publish list, next to the retained map. -/
structure Router where
  commitlog : List (String × List MPublish)
  active_connections : List (String × ActiveConnection)
  inactive_connections : List (String × InactiveConnection)
  retained_publishes : List (String × MPublish)
deriving DecidableEq, Repr

/-- `Router::fill_commitlog` (src/rumq-broker/src/router.rs lines 326-345):
a retained publish with empty payload clears the retained entry and returns
early; a retained publish otherwise replaces it; then the publish is pushed
onto its topic's commit-log vector. -/
def fill_commitlog (r : Router) (publish : MPublish) : Router :=
  if publish.retain ∧ publish.payload.length = 0 then
    { r with retained_publishes := alistRemove publish.topic_name r.retained_publishes }
  else
    let r :=
      if publish.retain then
        { r with retained_publishes := alistInsert publish.topic_name publish r.retained_publishes }
      else r
    match alistGet publish.topic_name r.commitlog with
    | some publishes =>
      { r with commitlog := alistInsert publish.topic_name (publishes ++ [publish]) r.commitlog }
    | none =>
      { r with commitlog := alistInsert publish.topic_name [publish] r.commitlog }

/-- `Router::handle_connect` (src/rumq-broker/src/router.rs lines 347-376).
In the non-clean reconnect arm the whole reactivation body (lines 361-365)
is commented out: the inactive entry is removed by the `if let` scrutinee
and dropped, no active connection is inserted, and `None` is returned. -/
def handle_connect (r : Router) (connect : Connect) :
    Router × Option (List MPublish) :=
  let id := connect.client_id
  let clean_session := connect.clean_session
  let will := connect.last_will
  if clean_session then
    let r := { r with inactive_connections := alistRemove id r.inactive_connections }
    let state := MqttState.new clean_session will
    let r := { r with active_connections := alistInsert id (ActiveConnection.new state) r.active_connections }
    (r, some [])
  else
    match alistGet id r.inactive_connections with
    | some _connection =>
      ({ r with inactive_connections := alistRemove id r.inactive_connections },
       none)
    | none =>
      let state := MqttState.new clean_session will
      ({ r with active_connections := alistInsert id (ActiveConnection.new state) r.active_connections },
       some [])

/-- `Router::deactivate_and_forward_will` (src/rumq-broker/src/router.rs
lines 434-451): remove the connection; `state.will.take()` empties the will
and, when one was present, publishes `(topic, qos, message)` into the commit
log; a persistent session is then moved, will-less, to the inactive map. -/
def deactivate_and_forward_will (r : Router) (id : String) : Router :=
  match alistGet id r.active_connections with
  | none => r
  | some connection =>
    let r := { r with active_connections := alistRemove id r.active_connections }
    let (r, state) :=
      match connection.state.will with
      | some will =>
        let publish := mkPublish will.topic will.qos will.message
        (fill_commitlog r publish, { connection.state with will := none })
      | none => (r, connection.state)
    if ¬ state.clean_session then
      { r with inactive_connections := alistInsert id ⟨state⟩ r.inactive_connections }
    else r

end RouterA

/-- Session state of the C5 scenario: a persistent (non-clean) session with
two queued outbound publishes. -/
def c5state : MqttState :=
  { clean_session := false, will := none,
    outgoing_publishes := [mkPublish "x" .AtMostOnce [1], mkPublish "x" .AtMostOnce [2]] }

/-- The reconnecting CONNECT of the C5 scenario. -/
def c5connect : Connect :=
  { client_id := "c1", clean_session := false, last_will := none }

/-- Module-router state for C5: client c1 is inactive with a pending queue. -/
def c5routerB : RouterB.Router :=
  { commitlog := CommitLog.new 10485760 100, active_connections := [],
    inactive_connections := [("c1", ⟨c5state⟩)] }

/-- Standalone-router state for C5. -/
def c5routerA : RouterA.Router :=
  { commitlog := [], active_connections := [],
    inactive_connections := [("c1", ⟨c5state⟩)], retained_publishes := [] }

/-- C5: When a CONNECT with clean_session = false arrives for a client id
present in the inactive map, the router moves that session into the active
map and replies with a Pending message containing the inactive session's
queued outbound publishes, so the reconnecting persistent client receives,
in order, every message enqueued while it was inactive.

The claim is false of the code in both router implementations.  In
router/mod.rs the session is moved into the active map (second conjunct)
but the `Some(RouterMessage::Pending(pending))` reply is commented out and
`None` is returned, so the queued publishes are never sent.  In router.rs
the whole reactivation body is commented out: the inactive entry is removed
and dropped, no active connection is created, and `None` is returned. -/
theorem c5_reconnect_pending_never_sent :
    (RouterB.handle_connect c5routerB c5connect).2 = none ∧
    alistGet "c1" (RouterB.handle_connect c5routerB c5connect).1.active_connections =
      some (ActiveConnection.new c5state) ∧
    (RouterB.handle_connect c5routerB c5connect).1.inactive_connections = [] ∧
    (RouterA.handle_connect c5routerA c5connect).2 = none ∧
    (RouterA.handle_connect c5routerA c5connect).1.active_connections = [] ∧
    (RouterA.handle_connect c5routerA c5connect).1.inactive_connections = [] :=
  ⟨rfl, rfl, rfl, rfl, rfl, rfl⟩

/-- Will of the C6 scenario: topic `dead`, payload `bye`, QoS 1. -/
def c6will : LastWill :=
  { topic := "dead", message := [98, 121, 101], qos := .AtLeastOnce, retain := false }

/-- Session state of the C6 scenario: persistent, with a will. -/
def c6state : MqttState :=
  { clean_session := false, will := some c6will, outgoing_publishes := [] }

/-- Module-router state for C6: client c1 active with will `c6will`. -/
def c6routerB : RouterB.Router :=
  { commitlog := CommitLog.new 10485760 100,
    active_connections := [("c1", ActiveConnection.new c6state)],
    inactive_connections := [] }

/-- Standalone-router state for C6. -/
def c6routerA : RouterA.Router :=
  { commitlog := [], active_connections := [("c1", RouterA.ActiveConnection.new c6state)],
    inactive_connections := [], retained_publishes := [] }

/-- C6: On a Death(id) router message for an active connection, the router
publishes the connection's will message (if one exists) into the commit
log, and then deactivates the connection: a persistent session's state is
moved to the inactive map, a clean session is dropped.

The claim is false of the module router (router/mod.rs), whose
`deactivate_and_forward_will` body is an empty `if let`: the persistent
connection with a will is removed from the active map and fully dropped —
the will is not published and the session is not moved to the inactive map
(first conjunct), although the same router's `deactivate` (the Disconnect
path) does move it (second conjunct).  The older standalone router
(router.rs) implements the claimed behavior: the will is published into the
commit log and the will-less persistent state moves to the inactive map
(remaining conjuncts). -/
theorem c6_death_drops_will_and_session :
    RouterB.deactivate_and_forward_will c6routerB "c1" =
      { commitlog := CommitLog.new 10485760 100, active_connections := [],
        inactive_connections := [] } ∧
    RouterB.deactivate c6routerB "c1" =
      { commitlog := CommitLog.new 10485760 100, active_connections := [],
        inactive_connections := [("c1", ⟨c6state⟩)] } ∧
    (RouterA.deactivate_and_forward_will c6routerA "c1").commitlog =
      [("dead", [mkPublish "dead" .AtLeastOnce [98, 121, 101]])] ∧
    (RouterA.deactivate_and_forward_will c6routerA "c1").active_connections = [] ∧
    (RouterA.deactivate_and_forward_will c6routerA "c1").inactive_connections =
      [("c1", ⟨{ clean_session := false, will := none, outgoing_publishes := [] }⟩)] :=
  ⟨rfl, rfl, rfl, rfl, rfl⟩
